import Mathlib

/-!
# Shallow embedding of the recipe-manager ordering core

This file embeds, in Lean 4, the parts of the `recipe-manager` backend that
the verified claims talk about:

* the role/permission evaluator of `app/utilities/rbac.py`
  (`require_system_roles`, `require_org_or_system_roles` and the capability
  shortcut functions built from them);
* the order aggregate of `app/routes/order_routes.py`
  (`create_order`, `update_order_status`, `calculate_order_total`);
* the payment adapter of `app/routes/payment_routes.py`
  (`create_checkout_session` and the post-verification body of
  `stripe_webhook`);
* the membership operations of `app/routes/restaurant_routes.py`
  (`add_member`, `accept_invitation`).

Conventions of the embedding:

* Python `Decimal` fields declared with `decimal_places=2` (recipe prices,
  order totals, line subtotals) are modelled by `Decimal2`, an integer count
  of cents; `Decimal2.val` is the represented rational value.
* A FastAPI `HTTPException` is modelled by `HTTPError` (status code and
  detail string).  Raising it aborts the request before any commit, so an
  operation returns `Except HTTPError (new state × response)`, and an error
  result leaves the persisted state as it was.
* The database session is modelled by an explicit `State` record of lists of
  rows; `find?` plays the role of `session.exec(select(...)).first()`.
* WebSocket notifications (`notify_new_order`, `notify_order_status_change`)
  are modelled as `Notification` values returned by the operation.
-/

deriving instance DecidableEq for Except

namespace RecipeManager

/-- Model of `SystemRole` of `app/models/enums.py`. -/
inductive SystemRole where
  | SUPERADMIN
  | CUSTOMER
  | RESTAURANT_OWNER
  | SUSPENDED
deriving DecidableEq, Repr, Fintype

/-- Model of `OrgRole` of `app/models/enums.py`. -/
inductive OrgRole where
  | RESTAURANT_ADMIN
  | EMPLOYEE
deriving DecidableEq, Repr, Fintype

/-- Model of `ApprovalStatus` of `app/models/enums.py`. -/
inductive ApprovalStatus where
  | PENDING
  | APPROVED
  | REJECTED
  | SUSPENDED
deriving DecidableEq, Repr, Fintype

/-- Model of `OrderStatus` of `app/models/enums.py`. -/
inductive OrderStatus where
  | PENDING
  | PAID
  | PREPARING
  | READY
  | COMPLETED
  | CANCELLED
deriving DecidableEq, Repr, Fintype

/-- The string `.value` of an `OrderStatus` member (the enum is a `str` enum). -/
def OrderStatus.value : OrderStatus → String
  | .PENDING => "pending"
  | .PAID => "paid"
  | .PREPARING => "preparing"
  | .READY => "ready"
  | .COMPLETED => "completed"
  | .CANCELLED => "cancelled"

/-- A Python `Decimal` restricted to two decimal places (every price and
amount field in the data model is declared with `decimal_places=2`),
represented by its number of cents. -/
structure Decimal2 where
  cents : ℤ
deriving DecidableEq, Repr

namespace Decimal2

/-- The rational value a `Decimal2` denotes. -/
def val (d : Decimal2) : ℚ := (d.cents : ℚ) / 100

/-- Python `Decimal * int` as Python computes it on a 2-place decimal and a
quantity: exact, and again a 2-place decimal. -/
def mulNat (d : Decimal2) (n : ℕ) : Decimal2 := ⟨d.cents * n⟩

instance : Add Decimal2 := ⟨fun a b => ⟨a.cents + b.cents⟩⟩

instance : Zero Decimal2 := ⟨⟨0⟩⟩

@[simp] theorem add_cents (a b : Decimal2) : (a + b).cents = a.cents + b.cents := rfl

@[simp] theorem zero_cents : (0 : Decimal2).cents = 0 := rfl

end Decimal2

/-- Python `int(q)` on an exact rational: truncation toward zero. -/
def pyInt (q : ℚ) : ℤ := q.num.tdiv q.den

/-- Model of `HTTPException`: status code and detail message. -/
structure HTTPError where
  code : ℕ
  detail : String
deriving DecidableEq, Repr

/-- Model of `User` row: id, system role, email (the fields the modelled operations
read). -/
structure User where
  id : ℕ
  role : SystemRole
  email : String
deriving DecidableEq, Repr

/-- Model of `Restaurant` row: id and approval status. -/
structure Restaurant where
  id : ℕ
  approval_status : ApprovalStatus
deriving DecidableEq, Repr

/-- Model of `Recipe` row: id, owning restaurant, current price. -/
structure Recipe where
  id : ℕ
  restaurant_id : ℕ
  price : Decimal2
deriving DecidableEq, Repr

/-- Model of `Membership` row: the (user, restaurant, org-role) ternary relation. -/
structure Membership where
  user_id : ℕ
  restaurant_id : ℕ
  role : OrgRole
deriving DecidableEq, Repr

/-- Model of `OrderItem` row (sans its own primary key, which no claim reads). -/
structure OrderItem where
  recipe_id : ℕ
  quantity : ℕ
  unit_price : Decimal2
  subtotal : Decimal2
  notes : Option String
deriving DecidableEq, Repr

/-- Model of `Order` row, with its `OrderItem` children inlined (an `OrderItem`
belongs to exactly one order). -/
structure Order where
  id : ℕ
  customer_id : ℕ
  restaurant_id : ℕ
  status : OrderStatus
  total_amount : Decimal2
  notes : Option String
  items : List OrderItem
deriving DecidableEq, Repr

/-- The persistent store the modelled operations read and write. -/
structure State where
  restaurants : List Restaurant
  recipes : List Recipe
  memberships : List Membership
  orders : List Order
  nextOrderId : ℕ
deriving DecidableEq, Repr

/-- Model of `session.exec(select(Order).where(Order.id == order_id)).first()`. -/
def findOrder (orders : List Order) (orderId : ℕ) : Option Order :=
  orders.find? (fun o => o.id == orderId)

/-- Model of `select(Restaurant).where(Restaurant.id == restaurant_id)`. -/
def findRestaurant (restaurants : List Restaurant) (restaurantId : ℕ) : Option Restaurant :=
  restaurants.find? (fun r => r.id == restaurantId)

/-- Model of `select(Recipe).where(Recipe.id == rid, Recipe.restaurant_id == restid)`. -/
def findRecipe (recipes : List Recipe) (recipeId restaurantId : ℕ) : Option Recipe :=
  recipes.find? (fun r => r.id == recipeId && r.restaurant_id == restaurantId)

/-- Model of `select(Membership).where(Membership.user_id == uid,
Membership.restaurant_id == rid)`. -/
def findMembership (memberships : List Membership) (userId restaurantId : ℕ) : Option Membership :=
  memberships.find? (fun m => m.user_id == userId && m.restaurant_id == restaurantId)

/-! ## Permission evaluator (`app/utilities/rbac.py`) -/

/-- Model of `require_system_roles(*roles)`: forbid unless the user's system role is
one of `roles`. -/
def require_system_roles (roles : List SystemRole) (currentUser : User) :
    Except HTTPError User :=
  if currentUser.role ∈ roles then .ok currentUser
  else .error ⟨403, "Forbidden"⟩

/-- Model of `require_superadmin`. -/
def require_superadmin (currentUser : User) : Except HTTPError User :=
  if currentUser.role = SystemRole.SUPERADMIN then .ok currentUser
  else .error ⟨403, "This action requires superadmin privileges"⟩

/-- Model of `require_org_or_system_roles(system_roles=..., org_roles=...)`: allow on a
matching system role, else on a membership for (user, restaurant) whose org
role matches; otherwise forbid. -/
def require_org_or_system_roles (system_roles : List SystemRole) (org_roles : List OrgRole)
    (memberships : List Membership) (restaurant_id : ℕ) (currentUser : User) :
    Except HTTPError User :=
  if currentUser.role ∈ system_roles then .ok currentUser
  else
    match findMembership memberships currentUser.id restaurant_id with
    | some membership =>
        if membership.role ∈ org_roles then .ok currentUser
        else .error ⟨403, "You don't have permission to perform this action."⟩
    | none => .error ⟨403, "You don't have permission to perform this action."⟩

/-- The five capabilities the evaluator serves. -/
inductive Capability where
  | createRestaurant
  | manageRestaurant
  | editMenu
  | readRestaurant
  | moderate
deriving DecidableEq, Repr, Fintype

/-- Dispatch a capability check to the access-control shortcut the routes
use for it: `require_restaurant_creation_access`,
`require_manage_restaurant_access`, `require_edit_menu_access`,
`require_read_restaurant_access`, `require_superadmin`. -/
def permissionCheck (cap : Capability) (memberships : List Membership)
    (restaurant_id : ℕ) (currentUser : User) : Except HTTPError User :=
  match cap with
  | .createRestaurant => require_system_roles [SystemRole.SUPERADMIN] currentUser
  | .manageRestaurant =>
      require_org_or_system_roles [SystemRole.SUPERADMIN] [OrgRole.RESTAURANT_ADMIN]
        memberships restaurant_id currentUser
  | .editMenu =>
      require_org_or_system_roles [SystemRole.SUPERADMIN]
        [OrgRole.RESTAURANT_ADMIN, OrgRole.EMPLOYEE] memberships restaurant_id currentUser
  | .readRestaurant =>
      require_org_or_system_roles [SystemRole.SUPERADMIN]
        [OrgRole.RESTAURANT_ADMIN, OrgRole.EMPLOYEE] memberships restaurant_id currentUser
  | .moderate => require_superadmin currentUser

/-- The system-role allowlist of each capability, as wired in the shortcut
functions of `rbac.py`. -/
def systemAllowlist : Capability → List SystemRole
  | .createRestaurant => [SystemRole.SUPERADMIN]
  | .manageRestaurant => [SystemRole.SUPERADMIN]
  | .editMenu => [SystemRole.SUPERADMIN]
  | .readRestaurant => [SystemRole.SUPERADMIN]
  | .moderate => [SystemRole.SUPERADMIN]

/-- The org-role allowlist of each capability (empty when the route uses a
pure system-role check with no membership lookup). -/
def orgAllowlist : Capability → List OrgRole
  | .createRestaurant => []
  | .manageRestaurant => [OrgRole.RESTAURANT_ADMIN]
  | .editMenu => [OrgRole.RESTAURANT_ADMIN, OrgRole.EMPLOYEE]
  | .readRestaurant => [OrgRole.RESTAURANT_ADMIN, OrgRole.EMPLOYEE]
  | .moderate => []

/-! ## Order aggregate (`app/routes/order_routes.py`) -/

/-- Subscriber key of a WebSocket notification: restaurant channel for
`notify_new_order`, customer channel for `notify_order_status_change`. -/
inductive SubscriberKey where
  | restaurantChannel (restaurant_id : ℕ)
  | customerChannel (customer_id : ℕ)
deriving DecidableEq, Repr

/-- The kind of WebSocket event an endpoint schedules. -/
inductive EventType where
  | newOrder
  | statusChanged
deriving DecidableEq, Repr

/-- A scheduled background notification: who it goes to, what it says, and
the order payload it carries. -/
structure Notification where
  subscriber : SubscriberKey
  event : EventType
  payload : Order
deriving DecidableEq, Repr

/-- Model of `OrderItemCreate`: what the customer sends for one line. -/
structure OrderItemCreate where
  recipe_id : ℕ
  quantity : ℕ
  notes : Option String
deriving DecidableEq, Repr

/-- Model of `OrderCreate`: the creation request body. -/
structure OrderCreate where
  restaurant_id : ℕ
  items : List OrderItemCreate
  notes : Option String
deriving DecidableEq, Repr

/-- Model of `OrderUpdate`: the status-update request body (both fields optional). -/
structure OrderUpdate where
  status : Option OrderStatus
  notes : Option String
deriving DecidableEq, Repr

/-- Model of `calculate_order_total`: sum of the items' subtotals. -/
def calculate_order_total (items : List OrderItem) : Decimal2 :=
  (items.map (fun item => item.subtotal)).sum

/-- The per-item loop of `create_order` (step 3): look each requested recipe
up in the target restaurant, snapshotting `unit_price = recipe.price` and
`subtotal = recipe.price * quantity`; a missing recipe aborts with 400. -/
def buildOrderItems (recipes : List Recipe) (restaurant_id : ℕ) :
    List OrderItemCreate → Except HTTPError (List OrderItem)
  | [] => .ok []
  | item_data :: rest =>
    match findRecipe recipes item_data.recipe_id restaurant_id with
    | none =>
        .error ⟨400, "Recipe with id " ++ toString item_data.recipe_id ++
          " not found in this restaurant"⟩
    | some recipe =>
        match buildOrderItems recipes restaurant_id rest with
        | .error e => .error e
        | .ok tail =>
            .ok (⟨recipe.id, item_data.quantity, recipe.price,
                  recipe.price.mulNat item_data.quantity, item_data.notes⟩ :: tail)

/-- Model of `create_order`: role gate, restaurant lookup and approval gate, non-empty
items gate, per-item price snapshot, then the new PENDING order is persisted
and a new-order notification is scheduled for the restaurant's channel. -/
def create_order (st : State) (current_user : User) (order_data : OrderCreate) :
    Except HTTPError (State × Order × Notification) :=
  if current_user.role ≠ SystemRole.CUSTOMER then
    .error ⟨403, "Only customers can place orders"⟩
  else
    match findRestaurant st.restaurants order_data.restaurant_id with
    | none => .error ⟨404, "Restaurant not found"⟩
    | some restaurant =>
      if restaurant.approval_status ≠ ApprovalStatus.APPROVED then
        .error ⟨400, "Cannot order from this restaurant - it is not currently available"⟩
      else if order_data.items = [] then
        .error ⟨400, "Order must contain at least one item"⟩
      else
        match buildOrderItems st.recipes order_data.restaurant_id order_data.items with
        | .error e => .error e
        | .ok order_items =>
          let total_amount := calculate_order_total order_items
          let new_order : Order :=
            { id := st.nextOrderId
              customer_id := current_user.id
              restaurant_id := order_data.restaurant_id
              status := OrderStatus.PENDING
              total_amount := total_amount
              notes := order_data.notes
              items := order_items }
          let st' : State :=
            { st with orders := st.orders ++ [new_order], nextOrderId := st.nextOrderId + 1 }
          .ok (st', new_order,
            ⟨SubscriberKey.restaurantChannel order_data.restaurant_id, EventType.newOrder,
              new_order⟩)

/-- The store an order-creation request leaves behind: the new store on
success, the unchanged store when an `HTTPException` aborted the request
before any commit. -/
def createOrderState (st : State) (current_user : User) (order_data : OrderCreate) : State :=
  match create_order st current_user order_data with
  | .ok (st', _, _) => st'
  | .error _ => st

/-- The `valid_transitions` table of `update_order_status`. -/
def valid_transitions : OrderStatus → List OrderStatus
  | .PENDING => [OrderStatus.PAID, OrderStatus.CANCELLED]
  | .PAID => [OrderStatus.PREPARING, OrderStatus.CANCELLED]
  | .PREPARING => [OrderStatus.READY]
  | .READY => [OrderStatus.COMPLETED]
  | .COMPLETED => []
  | .CANCELLED => []

/-- Replace the order row `session.add(order); session.commit()` writes back
(order ids are the primary key, so at most one row matches). -/
def writeOrder (orders : List Order) (updated : Order) : List Order :=
  orders.map (fun o => if o.id == updated.id then updated else o)

/-- The tail of `update_order_status` after the transition check: overwrite
notes when supplied, persist the row, and schedule the customer-channel
status-change notification. -/
def persistUpdatedOrder (st : State) (order : Order) (notes : Option String) :
    State × Order × Notification :=
  let order :=
    match notes with
    | some n => { order with notes := some n }
    | none => order
  ({ st with orders := writeOrder st.orders order }, order,
    ⟨SubscriberKey.customerChannel order.customer_id, EventType.statusChanged, order⟩)

/-- Model of `update_order_status`: look the order up (404 if absent); when a status is
supplied, enforce the transition table (400 naming both states if illegal) and
set it; then overwrite notes when supplied, persist, and schedule the
status-change notification. -/
def update_order_status (st : State) (order_id : ℕ) (update_data : OrderUpdate) :
    Except HTTPError (State × Order × Notification) :=
  match findOrder st.orders order_id with
  | none => .error ⟨404, "Order not found"⟩
  | some order =>
    match update_data.status with
    | some s =>
        if s ∈ valid_transitions order.status then
          .ok (persistUpdatedOrder st { order with status := s } update_data.notes)
        else
          .error ⟨400, "Cannot transition from " ++ order.status.value ++
            " to " ++ s.value⟩
    | none => .ok (persistUpdatedOrder st order update_data.notes)

/-! ## Payment adapter (`app/routes/payment_routes.py`) -/

/-- The checkout intent handed to the gateway: the single line item's
`unit_amount` in cents plus the metadata linking it back to the order. -/
structure CheckoutIntent where
  unit_amount : ℤ
  order_id : ℕ
  customer_id : ℕ
deriving DecidableEq, Repr

/-- The store a status-update request leaves behind: the new store on
success, the unchanged store when an `HTTPException` aborted the request
before any commit. -/
def updateOrderStatusState (st : State) (order_id : ℕ) (update_data : OrderUpdate) : State :=
  match update_order_status st order_id update_data with
  | .ok (st', _, _) => st'
  | .error _ => st

/-- Model of `create_checkout_session`: 404 for a missing order, 403 when the caller is
not the order's customer, 400 when the order is not PENDING; otherwise build
the gateway intent with `unit_amount = int(order.total_amount * 100)`.  The
endpoint never writes to the store, so no state is returned. -/
def create_checkout_session (st : State) (current_user : User) (order_id : ℕ) :
    Except HTTPError CheckoutIntent :=
  match findOrder st.orders order_id with
  | none => .error ⟨404, "Order not found"⟩
  | some order =>
    if order.customer_id ≠ current_user.id then
      .error ⟨403, "You can only pay for your own orders"⟩
    else if order.status ≠ OrderStatus.PENDING then
      .error ⟨400, "Order is already " ++ order.status.value ++ ", cannot process payment"⟩
    else
      .ok { unit_amount := pyInt (order.total_amount.val * 100)
            order_id := order.id
            customer_id := current_user.id }

/-- A gateway event that already passed signature verification: the two types
`stripe_webhook` inspects, with the order id its metadata may carry, and a
catch-all for every other type. -/
inductive StripeEvent where
  | checkoutSessionCompleted (order_id : Option ℕ)
  | paymentIntentPaymentFailed
  | otherEvent
deriving DecidableEq, Repr

/-- The post-verification body of `stripe_webhook`: on a completed checkout
whose metadata carries an order id, mark the order PAID when it exists and is
still PENDING; every verified event — whatever branch it takes — acknowledges
with 200 `{"status": "success"}`, modelled as the `"success"` string the
state is paired with. -/
def stripe_webhook_event (st : State) (event : StripeEvent) : State × String :=
  let st' : State :=
    match event with
    | .checkoutSessionCompleted (some order_id) =>
        match findOrder st.orders order_id with
        | some order =>
            if order.status = OrderStatus.PENDING then
              { st with
                  orders := writeOrder st.orders { order with status := OrderStatus.PAID } }
            else st
        | none => st
    | .checkoutSessionCompleted none => st
    | .paymentIntentPaymentFailed => st
    | .otherEvent => st
  (st', "success")

/-! ## Membership operations (`app/routes/restaurant_routes.py`) -/

/-- Model of `AddMemberRequest`: email of the user to add and the org role to grant. -/
structure AddMemberRequest where
  email : String
  role : OrgRole
deriving DecidableEq, Repr

/-- Model of `select(User).where(User.email == email)`. -/
def findUserByEmail (users : List User) (email : String) : Option User :=
  users.find? (fun u => u.email == email)

/-- Model of `add_member` (the route body after `require_manage_restaurant_access`):
find the user by email (404 if absent), reject an existing membership for
(user, restaurant) with 400, else persist the new membership. -/
def add_member (memberships : List Membership) (users : List User)
    (restaurant_id : ℕ) (request : AddMemberRequest) :
    Except HTTPError (List Membership × Membership) :=
  match findUserByEmail users request.email with
  | none => .error ⟨404, "User not found with this email"⟩
  | some user =>
    match findMembership memberships user.id restaurant_id with
    | some _ => .error ⟨400, "User is already a member of this restaurant"⟩
    | none =>
      let membership : Membership := ⟨user.id, restaurant_id, request.role⟩
      .ok (memberships ++ [membership], membership)

/-- The decoded payload of a staff-invitation token
(`verify_staff_invitation_token` returns it, or `None` for an invalid or
expired token). -/
structure InvitationPayload where
  email : String
  restaurant_id : ℕ
  role : OrgRole
deriving DecidableEq, Repr

/-- Model of `accept_invitation`: reject an invalid token (400) or an email mismatch
(403, compared case-insensitively) or a missing restaurant (404); reject an
existing membership for (user, restaurant) with 400; else persist the new
membership with the invited role. -/
def accept_invitation (memberships : List Membership) (restaurants : List Restaurant)
    (current_user : User) (token_payload : Option InvitationPayload) :
    Except HTTPError (List Membership × Membership) :=
  match token_payload with
  | none => .error ⟨400, "Invalid or expired invitation token"⟩
  | some payload =>
    if current_user.email.toLower ≠ payload.email.toLower then
      .error ⟨403, "This invitation was sent to a different email address"⟩
    else
      match findRestaurant restaurants payload.restaurant_id with
      | none => .error ⟨404, "Restaurant not found"⟩
      | some _ =>
        match findMembership memberships current_user.id payload.restaurant_id with
        | some _ => .error ⟨400, "You are already a member of this restaurant"⟩
        | none =>
          let membership : Membership := ⟨current_user.id, payload.restaurant_id, payload.role⟩
          .ok (memberships ++ [membership], membership)

/-- The data-model invariant on memberships: at most one membership per
(user_id, restaurant_id) pair. -/
def uniqueMembershipPairs (memberships : List Membership) : Prop :=
  List.Pairwise
    (fun a b => ¬(a.user_id = b.user_id ∧ a.restaurant_id = b.restaurant_id)) memberships

/-- Model of `update_recipe`-style price change: the only recipe mutation the claims
need, mapping a new current price onto the recipe row (`update_recipe` writes
only the recipe row; no order row is touched). -/
def updateRecipePrice (st : State) (recipe_id : ℕ) (new_price : Decimal2) : State :=
  { st with recipes :=
      st.recipes.map (fun r => if r.id == recipe_id then { r with price := new_price } else r) }

/-! ## Spec-side tables and witness fixtures -/

/-- The legal-transition table exactly as the spec lists it, for comparison
with the code's `valid_transitions` dictionary. -/
def legalTransitionTable : List (OrderStatus × OrderStatus) :=
  [(OrderStatus.PENDING, OrderStatus.PAID),
   (OrderStatus.PENDING, OrderStatus.CANCELLED),
   (OrderStatus.PAID, OrderStatus.PREPARING),
   (OrderStatus.PAID, OrderStatus.CANCELLED),
   (OrderStatus.PREPARING, OrderStatus.READY),
   (OrderStatus.READY, OrderStatus.COMPLETED)]

/-- Concrete customer used by the witnesses. -/
def aliceCustomer : User := ⟨10, SystemRole.CUSTOMER, "alice@example.com"⟩

/-- Concrete suspended principal used by the witnesses. -/
def suspendedUser : User := ⟨12, SystemRole.SUSPENDED, "sue@example.com"⟩

/-- Concrete approved restaurant used by the witnesses. -/
def pizzaPlace : Restaurant := ⟨1, ApprovalStatus.APPROVED⟩

/-- Concrete recipe priced USD 12.99 used by the witnesses. -/
def margherita : Recipe := ⟨5, 1, ⟨1299⟩⟩

/-- A store holding one approved restaurant with one recipe and no orders. -/
def baseState : State := ⟨[pizzaPlace], [margherita], [], [], 1⟩

/-- A PENDING order of 2 × USD 12.99 placed by the witness customer. -/
def pendingOrder : Order :=
  ⟨1, 10, 1, OrderStatus.PENDING, ⟨2598⟩, none, [⟨5, 2, ⟨1299⟩, ⟨2598⟩, none⟩]⟩

/-- A COMPLETED (terminal) order of the witness customer. -/
def completedOrder : Order := ⟨2, 10, 1, OrderStatus.COMPLETED, ⟨2598⟩, none, []⟩

/-- A store that also holds the two witness orders. -/
def orderState : State := ⟨[pizzaPlace], [margherita], [], [pendingOrder, completedOrder], 3⟩

/-- Concrete restaurant-owner principal used by the RBAC witnesses. -/
def ownerBob : User := ⟨20, SystemRole.RESTAURANT_OWNER, "bob@example.com"⟩

/-- Concrete invited staff principal used by the membership witnesses. -/
def carolUser : User := ⟨30, SystemRole.RESTAURANT_OWNER, "carol@example.com"⟩

/-! ## Theorems -/

/-- The code's `valid_transitions` dictionary realizes exactly the spec's
legal-transition table. -/
theorem valid_transitions_iff_table (a b : OrderStatus) :
    b ∈ valid_transitions a ↔ (a, b) ∈ legalTransitionTable := by
  revert a b
  decide

/-- **C1**: for every existing order and every supplied requested status, the
status update succeeds exactly when (current, requested) is in the
legal-transition table; for every pair outside the table it fails with a 400
invalid-transition error whose message names both the current and the
requested status, so the stored order is unchanged (the exception aborts the
request before any write). -/
theorem update_status_respects_transition_table (st : State) (order_id : ℕ)
    (update_data : OrderUpdate) (ord : Order) (s : OrderStatus)
    (hfind : findOrder st.orders order_id = some ord)
    (hs : update_data.status = some s) :
    ((∃ r, update_order_status st order_id update_data = .ok r) ↔
        (ord.status, s) ∈ legalTransitionTable) ∧
    ((ord.status, s) ∉ legalTransitionTable →
        update_order_status st order_id update_data =
          .error ⟨400, "Cannot transition from " ++ ord.status.value ++ " to " ++ s.value⟩ ∧
        updateOrderStatusState st order_id update_data = st) := by
  have hiff := valid_transitions_iff_table ord.status s
  by_cases hmem : s ∈ valid_transitions ord.status
  · constructor
    · simp only [update_order_status, hfind, hs, if_pos hmem]
      exact ⟨fun _ => hiff.mp hmem, fun _ => ⟨_, rfl⟩⟩
    · intro hnot
      exact absurd (hiff.mp hmem) hnot
  · have herr : update_order_status st order_id update_data =
        .error ⟨400, "Cannot transition from " ++ ord.status.value ++ " to " ++ s.value⟩ := by
      simp only [update_order_status, hfind, hs, if_neg hmem]
    constructor
    · rw [herr]
      constructor
      · rintro ⟨r, hr⟩
        cases hr
      · intro htab
        exact absurd (hiff.mpr htab) hmem
    · intro _
      exact ⟨herr, by simp only [updateOrderStatusState, herr]⟩

/-- Witness for the C1 theorem: on the concrete PENDING witness order, a
direct request for READY is rejected with the message naming both states
(spec scenario: "rejected with message naming pending and ready"). -/
theorem update_status_respects_transition_table_witness :
    update_order_status orderState 1 ⟨some OrderStatus.READY, none⟩ =
      .error ⟨400, "Cannot transition from " ++ OrderStatus.value OrderStatus.PENDING ++
        " to " ++ OrderStatus.value OrderStatus.READY⟩ ∧
    updateOrderStatusState orderState 1 ⟨some OrderStatus.READY, none⟩ = orderState :=
  (update_status_respects_transition_table orderState 1 ⟨some OrderStatus.READY, none⟩
    pendingOrder OrderStatus.READY (by decide) rfl).2 (by decide)

/-- **C10**: for every existing order — terminal states included — an update
request with the status field omitted succeeds with no transition check: the
status and every modelled field other than notes are unchanged, notes is
overwritten exactly when supplied, the row is written back, and a
status-changed notification to the order's customer is still emitted. -/
theorem update_status_omitted_is_notes_only_update (st : State) (order_id : ℕ)
    (notes : Option String) (ord : Order)
    (hfind : findOrder st.orders order_id = some ord) :
    ∃ st' o',
      update_order_status st order_id ⟨none, notes⟩ =
        .ok (st', o',
          ⟨SubscriberKey.customerChannel ord.customer_id, EventType.statusChanged, o'⟩) ∧
      o'.status = ord.status ∧
      o'.id = ord.id ∧
      o'.customer_id = ord.customer_id ∧
      o'.restaurant_id = ord.restaurant_id ∧
      o'.total_amount = ord.total_amount ∧
      o'.items = ord.items ∧
      o'.notes = (match notes with | some n => some n | none => ord.notes) ∧
      st' = { st with orders := writeOrder st.orders o' } := by
  cases notes with
  | none =>
      refine ⟨_, _, ?_, rfl, rfl, rfl, rfl, rfl, rfl, rfl, rfl⟩
      simp only [update_order_status, hfind, persistUpdatedOrder]
  | some n =>
      refine ⟨_, { ord with notes := some n }, ?_, rfl, rfl, rfl, rfl, rfl, rfl, rfl, rfl⟩
      simp only [update_order_status, hfind, persistUpdatedOrder]

/-- Witness for the C10 theorem: the COMPLETED (terminal) witness order
accepts a status-free update that overwrites its notes and still notifies
customer 10. -/
theorem update_status_omitted_is_notes_only_update_witness :
    ∃ st' o',
      update_order_status orderState 2 ⟨none, some "left at door"⟩ =
        .ok (st', o',
          ⟨SubscriberKey.customerChannel completedOrder.customer_id,
            EventType.statusChanged, o'⟩) ∧
      o'.status = completedOrder.status ∧
      o'.id = completedOrder.id ∧
      o'.customer_id = completedOrder.customer_id ∧
      o'.restaurant_id = completedOrder.restaurant_id ∧
      o'.total_amount = completedOrder.total_amount ∧
      o'.items = completedOrder.items ∧
      o'.notes = (match (some "left at door" : Option String) with
        | some n => some n
        | none => completedOrder.notes) ∧
      st' = { orderState with orders := writeOrder orderState.orders o' } :=
  update_status_omitted_is_notes_only_update orderState 2 (some "left at door")
    completedOrder (by decide)

/-- Every item the creation loop builds snapshots the current price of a
recipe found in the target restaurant: `unit_price` is that recipe's price and
`subtotal` is `unit_price * quantity`. -/
theorem buildOrderItems_snapshot (recipes : List Recipe) (rid : ℕ)
    (reqs : List OrderItemCreate) (items : List OrderItem)
    (h : buildOrderItems recipes rid reqs = .ok items) :
    ∀ item ∈ items, ∃ r : Recipe,
      findRecipe recipes item.recipe_id rid = some r ∧
      item.unit_price = r.price ∧
      item.subtotal = r.price.mulNat item.quantity := by
  induction reqs generalizing items with
  | nil =>
      cases h
      intro item hitem
      cases hitem
  | cons head tail ih =>
      rw [buildOrderItems] at h
      cases hr : findRecipe recipes head.recipe_id rid with
      | none => rw [hr] at h; cases h
      | some recipe =>
          rw [hr] at h
          cases ht : buildOrderItems recipes rid tail with
          | error e => rw [ht] at h; cases h
          | ok tailItems =>
              rw [ht] at h
              cases h
              intro item hitem
              cases hitem with
              | head =>
                  have hid : recipe.id = head.recipe_id := by
                    have hp := List.find?_some hr
                    simp only [Bool.and_eq_true, beq_iff_eq] at hp
                    exact hp.1
                  exact ⟨recipe, by rw [hid]; exact hr, rfl, rfl⟩
              | tail _ hmem => exact ih tailItems ht item hmem

/-- **C2**: whenever order creation succeeds, every created item's
`unit_price` is the referenced recipe's price in the pre-creation store and
its `subtotal` is `unit_price × quantity`; the order's `total_amount` is the
sum of the item subtotals; and a later change to any recipe's price leaves
the stored orders untouched (the frozen values are decoupled from the
menu). -/
theorem create_order_freezes_prices (st : State) (current_user : User)
    (order_data : OrderCreate) (st' : State) (ord : Order) (notif : Notification)
    (h : create_order st current_user order_data = .ok (st', ord, notif)) :
    (∀ item ∈ ord.items, ∃ r : Recipe,
        findRecipe st.recipes item.recipe_id order_data.restaurant_id = some r ∧
        item.unit_price = r.price ∧
        item.subtotal = r.price.mulNat item.quantity) ∧
    ord.total_amount = (ord.items.map (fun item => item.subtotal)).sum ∧
    (∀ recipe_id new_price,
        (updateRecipePrice st' recipe_id new_price).orders = st'.orders) := by
  unfold create_order at h
  split at h
  · cases h
  · split at h
    · cases h
    · split at h
      · cases h
      · split at h
        · cases h
        · split at h
          · cases h
          · rename_i order_items hbuild
            cases h
            exact ⟨buildOrderItems_snapshot _ _ _ _ hbuild, rfl,
              fun recipe_id new_price => rfl⟩

/-- Witness for the C2 theorem: the spec's own scenario — 2 × a USD 12.99
recipe gives a frozen unit price of 12.99, a subtotal and total of 25.98. -/
theorem create_order_freezes_prices_witness :
    (∀ item ∈ (⟨1, 10, 1, OrderStatus.PENDING, ⟨2598⟩, none,
        [⟨5, 2, ⟨1299⟩, ⟨2598⟩, none⟩]⟩ : Order).items, ∃ r : Recipe,
        findRecipe baseState.recipes item.recipe_id 1 = some r ∧
        item.unit_price = r.price ∧
        item.subtotal = r.price.mulNat item.quantity) ∧
    (⟨2598⟩ : Decimal2) =
      (([⟨5, 2, ⟨1299⟩, ⟨2598⟩, none⟩] : List OrderItem).map
        (fun item => item.subtotal)).sum ∧
    (∀ recipe_id new_price,
        (updateRecipePrice ⟨[pizzaPlace], [margherita], [],
          [⟨1, 10, 1, OrderStatus.PENDING, ⟨2598⟩, none,
            [⟨5, 2, ⟨1299⟩, ⟨2598⟩, none⟩]⟩], 2⟩ recipe_id new_price).orders =
          (⟨[pizzaPlace], [margherita], [],
            [⟨1, 10, 1, OrderStatus.PENDING, ⟨2598⟩, none,
              [⟨5, 2, ⟨1299⟩, ⟨2598⟩, none⟩]⟩], 2⟩ : State).orders) :=
  create_order_freezes_prices baseState aliceCustomer ⟨1, [⟨5, 2, none⟩], none⟩
    ⟨[pizzaPlace], [margherita], [],
      [⟨1, 10, 1, OrderStatus.PENDING, ⟨2598⟩, none, [⟨5, 2, ⟨1299⟩, ⟨2598⟩, none⟩]⟩], 2⟩
    ⟨1, 10, 1, OrderStatus.PENDING, ⟨2598⟩, none, [⟨5, 2, ⟨1299⟩, ⟨2598⟩, none⟩]⟩
    ⟨SubscriberKey.restaurantChannel 1, EventType.newOrder,
      ⟨1, 10, 1, OrderStatus.PENDING, ⟨2598⟩, none, [⟨5, 2, ⟨1299⟩, ⟨2598⟩, none⟩]⟩⟩
    rfl

/-- When the creation loop fails, the error is an HTTP 400 and some requested
recipe id does not resolve within the target restaurant. -/
theorem buildOrderItems_error_spec (recipes : List Recipe) (rid : ℕ)
    (reqs : List OrderItemCreate) (e : HTTPError)
    (h : buildOrderItems recipes rid reqs = .error e) :
    e.code = 400 ∧ ∃ req ∈ reqs, findRecipe recipes req.recipe_id rid = none := by
  induction reqs with
  | nil => cases h
  | cons head tail ih =>
      rw [buildOrderItems] at h
      cases hr : findRecipe recipes head.recipe_id rid with
      | none =>
          rw [hr] at h
          cases h
          exact ⟨rfl, head, List.mem_cons_self _ _, hr⟩
      | some recipe =>
          rw [hr] at h
          cases ht : buildOrderItems recipes rid tail with
          | error e2 =>
              rw [ht] at h
              cases h
              obtain ⟨hcode, req, hmem, hnone⟩ := ih ht
              exact ⟨hcode, req, List.mem_cons_of_mem _ hmem, hnone⟩
          | ok tailItems => rw [ht] at h; cases h

/-- When some requested recipe id does not resolve within the target
restaurant, the creation loop fails, with an HTTP 400. -/
theorem buildOrderItems_error_of_missing (recipes : List Recipe) (rid : ℕ)
    (reqs : List OrderItemCreate)
    (h : ∃ req ∈ reqs, findRecipe recipes req.recipe_id rid = none) :
    ∃ e : HTTPError, buildOrderItems recipes rid reqs = .error e ∧ e.code = 400 := by
  induction reqs with
  | nil => obtain ⟨req, hmem, _⟩ := h; cases hmem
  | cons head tail ih =>
      obtain ⟨req, hmem, hnone⟩ := h
      rw [buildOrderItems]
      cases hr : findRecipe recipes head.recipe_id rid with
      | none => exact ⟨_, rfl, rfl⟩
      | some recipe =>
          cases hmem with
          | head => rw [hr] at hnone; cases hnone
          | tail _ hmem' =>
              obtain ⟨e, he, hcode⟩ := ih ⟨req, hmem', hnone⟩
              rw [he]
              exact ⟨e, rfl, hcode⟩

/-- Counterexample to **C5 as stated**: the claim says a non-resolving recipe
id makes creation fail with "not found", but on a concrete request (customer,
approved restaurant, single item naming the absent recipe 99) the code raises
HTTP 400 — its `create_order` uses `HTTP_400_BAD_REQUEST` for a missing
recipe, reserving 404 for the restaurant lookup. -/
theorem create_order_missing_recipe_is_400_not_404 :
    create_order baseState aliceCustomer ⟨1, [⟨99, 1, none⟩], none⟩ =
      .error ⟨400, "Recipe with id 99 not found in this restaurant"⟩ ∧
    (400 : ℕ) ≠ 404 :=
  ⟨rfl, by decide⟩

/-- **C5 amended**: order creation fails with 403 "forbidden" for every
non-CUSTOMER principal, with 404 "not found" when the restaurant id does not
resolve, and with a 400 "invalid" error when the restaurant is not APPROVED,
when the items list is empty, or when any item's recipe id does not resolve
within the target restaurant (this last case is 400, not the 404 the original
claim stated); in every failure case the store is unchanged, so no order and
no order items are created. -/
theorem create_order_failure_modes (st : State) (current_user : User)
    (order_data : OrderCreate) :
    (current_user.role ≠ SystemRole.CUSTOMER →
      create_order st current_user order_data =
        .error ⟨403, "Only customers can place orders"⟩) ∧
    (current_user.role = SystemRole.CUSTOMER →
      findRestaurant st.restaurants order_data.restaurant_id = none →
      create_order st current_user order_data = .error ⟨404, "Restaurant not found"⟩) ∧
    (∀ restaurant,
      current_user.role = SystemRole.CUSTOMER →
      findRestaurant st.restaurants order_data.restaurant_id = some restaurant →
      restaurant.approval_status ≠ ApprovalStatus.APPROVED →
      create_order st current_user order_data =
        .error ⟨400, "Cannot order from this restaurant - it is not currently available"⟩) ∧
    (∀ restaurant,
      current_user.role = SystemRole.CUSTOMER →
      findRestaurant st.restaurants order_data.restaurant_id = some restaurant →
      restaurant.approval_status = ApprovalStatus.APPROVED →
      order_data.items = [] →
      create_order st current_user order_data =
        .error ⟨400, "Order must contain at least one item"⟩) ∧
    (∀ restaurant,
      current_user.role = SystemRole.CUSTOMER →
      findRestaurant st.restaurants order_data.restaurant_id = some restaurant →
      restaurant.approval_status = ApprovalStatus.APPROVED →
      (∃ req ∈ order_data.items,
        findRecipe st.recipes req.recipe_id order_data.restaurant_id = none) →
      ∃ e : HTTPError, create_order st current_user order_data = .error e ∧ e.code = 400) ∧
    (∀ e : HTTPError, create_order st current_user order_data = .error e →
      createOrderState st current_user order_data = st) := by
  refine ⟨?_, ?_, ?_, ?_, ?_, ?_⟩
  · intro h
    simp only [create_order, if_pos h]
  · intro h1 h2
    simp only [create_order, h1, h2]
    simp
  · intro restaurant h1 h2 h3
    simp only [create_order, h1, h2]
    simp [h3]
  · intro restaurant h1 h2 h3 h4
    simp only [create_order, h1, h2, h4]
    simp [h3]
  · intro restaurant h1 h2 h3 hmiss
    obtain ⟨e, he, hcode⟩ := buildOrderItems_error_of_missing st.recipes
      order_data.restaurant_id order_data.items hmiss
    have hne : order_data.items ≠ [] := by
      obtain ⟨req, hmem, _⟩ := hmiss
      intro hnil
      rw [hnil] at hmem
      cases hmem
    refine ⟨e, ?_, hcode⟩
    simp only [create_order, h1, h2, he]
    simp [h3, hne]
  · intro e he
    simp only [createOrderState, he]

/-- Witness for the amended C5 theorem: the failure branches at concrete
inputs — a suspended principal is forbidden (403), a request against the
absent restaurant 9 is 404, an empty items list is 400, and the absent recipe
99 yields a 400 error with the store unchanged. -/
theorem create_order_failure_modes_witness :
    (create_order baseState suspendedUser ⟨1, [⟨5, 1, none⟩], none⟩ =
      .error ⟨403, "Only customers can place orders"⟩) ∧
    (create_order baseState aliceCustomer ⟨9, [⟨5, 1, none⟩], none⟩ =
      .error ⟨404, "Restaurant not found"⟩) ∧
    (create_order baseState aliceCustomer ⟨1, [], none⟩ =
      .error ⟨400, "Order must contain at least one item"⟩) ∧
    (∃ e : HTTPError,
      create_order baseState aliceCustomer ⟨1, [⟨99, 1, none⟩], none⟩ = .error e ∧
      e.code = 400) ∧
    (createOrderState baseState aliceCustomer ⟨1, [⟨99, 1, none⟩], none⟩ = baseState) :=
  ⟨(create_order_failure_modes baseState suspendedUser ⟨1, [⟨5, 1, none⟩], none⟩).1
      (by decide),
   (create_order_failure_modes baseState aliceCustomer ⟨9, [⟨5, 1, none⟩], none⟩).2.1
      rfl (by decide),
   (create_order_failure_modes baseState aliceCustomer ⟨1, [], none⟩).2.2.2.1
      pizzaPlace rfl (by decide) rfl rfl,
   (create_order_failure_modes baseState aliceCustomer ⟨1, [⟨99, 1, none⟩], none⟩).2.2.2.2.1
      pizzaPlace rfl (by decide) rfl ⟨⟨99, 1, none⟩, List.mem_cons_self _ _, by decide⟩,
   (create_order_failure_modes baseState aliceCustomer ⟨1, [⟨99, 1, none⟩], none⟩).2.2.2.2.2
      ⟨400, "Recipe with id 99 not found in this restaurant"⟩ rfl⟩

/-- Writing back an updated row with the same primary key makes the id lookup
return the updated row. -/
theorem findOrder_writeOrder (orders : List Order) (oid : ℕ) (ord upd : Order)
    (hfind : findOrder orders oid = some ord) (hid : upd.id = ord.id) :
    findOrder (writeOrder orders upd) oid = some upd := by
  unfold findOrder at hfind
  have hp : ord.id = oid := by
    have h := List.find?_some hfind
    simpa using h
  unfold findOrder writeOrder
  rw [List.find?_map]
  have hcomp : ((fun o : Order => o.id == oid) ∘ fun o => if o.id == upd.id then upd else o) =
      fun o : Order => o.id == oid := by
    funext o
    by_cases h : o.id = upd.id
    · simp [h, hid, hp]
    · simp [h]
  rw [hcomp, hfind]
  simp [hid, hp]

/-- **C4**: a verified payment-success event for an order that is PENDING
marks exactly that order PAID; for an order in any other status the store is
untouched; the response is the 200 success acknowledgement either way (never
an error); and processing any verified event a second time changes nothing —
at most one PENDING→PAID transition happens no matter how often the event is
delivered. -/
theorem stripe_webhook_idempotent_reconciliation (st : State) (oid : ℕ) (ord : Order)
    (hfind : findOrder st.orders oid = some ord) :
    (stripe_webhook_event st (.checkoutSessionCompleted (some oid))).2 = "success" ∧
    (ord.status = OrderStatus.PENDING →
      (stripe_webhook_event st (.checkoutSessionCompleted (some oid))).1 =
        { st with orders := writeOrder st.orders { ord with status := OrderStatus.PAID } }) ∧
    (ord.status ≠ OrderStatus.PENDING →
      (stripe_webhook_event st (.checkoutSessionCompleted (some oid))).1 = st) ∧
    (∀ (st2 : State) (event : StripeEvent),
      stripe_webhook_event (stripe_webhook_event st2 event).1 event =
        stripe_webhook_event st2 event) := by
  refine ⟨rfl, ?_, ?_, ?_⟩
  · intro hp
    simp [stripe_webhook_event, hfind, hp]
  · intro hp
    simp [stripe_webhook_event, hfind, hp]
  · intro st2 event
    cases event with
    | paymentIntentPaymentFailed => rfl
    | otherEvent => rfl
    | checkoutSessionCompleted o =>
        cases o with
        | none => rfl
        | some oid2 =>
            cases hf : findOrder st2.orders oid2 with
            | none => simp [stripe_webhook_event, hf]
            | some ord2 =>
                by_cases hp : ord2.status = OrderStatus.PENDING
                · have hfind3 :
                      findOrder
                        (writeOrder st2.orders { ord2 with status := OrderStatus.PAID })
                        oid2 = some { ord2 with status := OrderStatus.PAID } :=
                    findOrder_writeOrder st2.orders oid2 ord2 _ hf rfl
                  simp [stripe_webhook_event, hf, hp, hfind3]
                · simp [stripe_webhook_event, hf, hp]

/-- Witness for the C4 theorem: the concrete PENDING witness order becomes
PAID with a success acknowledgement, and redelivering the same event to the
resulting store is a no-op. -/
theorem stripe_webhook_idempotent_reconciliation_witness :
    (stripe_webhook_event orderState (.checkoutSessionCompleted (some 1))).2 = "success" ∧
    (stripe_webhook_event orderState (.checkoutSessionCompleted (some 1))).1 =
      { orderState with
          orders := writeOrder orderState.orders
            { pendingOrder with status := OrderStatus.PAID } } ∧
    stripe_webhook_event
        (stripe_webhook_event orderState (.checkoutSessionCompleted (some 1))).1
        (.checkoutSessionCompleted (some 1)) =
      stripe_webhook_event orderState (.checkoutSessionCompleted (some 1)) := by
  have h := stripe_webhook_idempotent_reconciliation orderState 1 pendingOrder (by decide)
  exact ⟨h.1, h.2.1 rfl, h.2.2.2 orderState (.checkoutSessionCompleted (some 1))⟩

/-- **C7**: for an existing order, checkout-session creation is rejected 403
"forbidden" whenever the caller is not the order's customer; when the caller
is the customer but the order is not PENDING it is rejected 400 "invalid
state" (message naming the current status); only when both preconditions hold
is a gateway intent produced.  The endpoint performs no store write on any
path — in the rejection cases no order state changes and, the result being an
error, no gateway intent is built. -/
theorem checkout_session_preconditions (st : State) (current_user : User)
    (order_id : ℕ) (ord : Order)
    (hfind : findOrder st.orders order_id = some ord) :
    (ord.customer_id ≠ current_user.id →
      create_checkout_session st current_user order_id =
        .error ⟨403, "You can only pay for your own orders"⟩) ∧
    (ord.customer_id = current_user.id → ord.status ≠ OrderStatus.PENDING →
      create_checkout_session st current_user order_id =
        .error ⟨400, "Order is already " ++ ord.status.value ++ ", cannot process payment"⟩) ∧
    (ord.customer_id = current_user.id → ord.status = OrderStatus.PENDING →
      create_checkout_session st current_user order_id =
        .ok ⟨pyInt (ord.total_amount.val * 100), ord.id, current_user.id⟩) := by
  refine ⟨?_, ?_, ?_⟩
  · intro h
    simp [create_checkout_session, hfind, h]
  · intro h1 h2
    simp [create_checkout_session, hfind, h1, h2]
  · intro h1 h2
    simp [create_checkout_session, hfind, h1, h2]

/-- Witness for the C7 theorem: the suspended stranger cannot pay for the
witness customer's order (403), the customer cannot pay for their COMPLETED
order (400 naming "completed"), and the customer checking out their PENDING
order gets a gateway intent. -/
theorem checkout_session_preconditions_witness :
    (create_checkout_session orderState suspendedUser 1 =
      .error ⟨403, "You can only pay for your own orders"⟩) ∧
    (create_checkout_session orderState aliceCustomer 2 =
      .error ⟨400, "Order is already " ++ OrderStatus.value OrderStatus.COMPLETED ++
        ", cannot process payment"⟩) ∧
    (create_checkout_session orderState aliceCustomer 1 =
      .ok ⟨pyInt ((⟨2598⟩ : Decimal2).val * 100), 1, 10⟩) :=
  ⟨(checkout_session_preconditions orderState suspendedUser 1 pendingOrder
      (by decide)).1 (by decide),
   (checkout_session_preconditions orderState aliceCustomer 2 completedOrder
      (by decide)).2.1 rfl (by decide),
   (checkout_session_preconditions orderState aliceCustomer 1 pendingOrder
      (by decide)).2.2 rfl rfl⟩

/-- A two-place decimal scaled by 100 and truncated Python-style is exactly
its number of cents: `int(Decimal * 100)` loses nothing. -/
theorem pyInt_hundred_times_val (d : Decimal2) : pyInt (d.val * 100) = d.cents := by
  unfold Decimal2.val
  rw [div_mul_cancel₀]
  · simp [pyInt]
  · norm_num

/-- **C8**: whenever a checkout session is created, the `unit_amount`
forwarded to the gateway equals the order's stored cents, i.e. as a rational
number it is exactly 100 × the decimal `total_amount` — the minor-unit
conversion `int(order.total_amount * 100)` introduces no deviation for
two-place decimals. -/
theorem checkout_amount_is_exact_cents (st : State) (current_user : User)
    (order_id : ℕ) (ord : Order) (intent : CheckoutIntent)
    (hfind : findOrder st.orders order_id = some ord)
    (h : create_checkout_session st current_user order_id = .ok intent) :
    intent.unit_amount = ord.total_amount.cents ∧
    (intent.unit_amount : ℚ) = 100 * ord.total_amount.val := by
  unfold create_checkout_session at h
  simp only [hfind] at h
  by_cases h1 : ord.customer_id ≠ current_user.id
  · rw [if_pos h1] at h; cases h
  · rw [if_neg h1] at h
    by_cases h2 : ord.status ≠ OrderStatus.PENDING
    · rw [if_pos h2] at h; cases h
    · rw [if_neg h2] at h
      cases h
      have hcents := pyInt_hundred_times_val ord.total_amount
      refine ⟨hcents, ?_⟩
      rw [hcents]
      unfold Decimal2.val
      push_cast
      ring

/-- Witness for the C8 theorem: checking out the USD 25.98 witness order
forwards exactly 2598 cents. -/
theorem checkout_amount_is_exact_cents_witness :
    (⟨2598, 1, 10⟩ : CheckoutIntent).unit_amount = (⟨2598⟩ : Decimal2).cents ∧
    (((⟨2598, 1, 10⟩ : CheckoutIntent).unit_amount : ℚ)) =
      100 * (⟨2598⟩ : Decimal2).val :=
  checkout_amount_is_exact_cents orderState aliceCustomer 1 pendingOrder ⟨2598, 1, 10⟩
    (by decide)
    (by
      have hfind : findOrder orderState.orders 1 = some pendingOrder := by decide
      unfold create_checkout_session
      simp only [hfind]
      simp [pendingOrder, aliceCustomer, orderState]
      exact pyInt_hundred_times_val ⟨2598⟩)

/-- The combined check allows exactly on a matching system role or a matching
membership role for the supplied restaurant. -/
theorem require_org_or_system_roles_ok_iff (sys : List SystemRole) (org : List OrgRole)
    (ms : List Membership) (rid : ℕ) (u : User) :
    (∃ v, require_org_or_system_roles sys org ms rid u = .ok v) ↔
      (u.role ∈ sys ∨ ∃ m, findMembership ms u.id rid = some m ∧ m.role ∈ org) := by
  unfold require_org_or_system_roles
  by_cases h1 : u.role ∈ sys
  · simp [h1]
  · simp only [if_neg h1]
    cases hm : findMembership ms u.id rid with
    | none => simp [h1, hm]
    | some m =>
        by_cases h2 : m.role ∈ org
        · simp [h1, hm, h2]
        · simp [h1, hm, h2]

/-- **C6**: the permission evaluator allows a capability on restaurant R
exactly when the principal's system role is in the capability's system-role
allowlist or a membership for (principal, R) has an org role in the
capability's org-role allowlist; and concretely, a non-superadmin who is
RESTAURANT_ADMIN of restaurant X (and holds no membership in Y) is allowed
"manage restaurant" on X but denied it on Y — membership in a different
restaurant never grants access. -/
theorem permission_evaluator_characterization :
    (∀ (cap : Capability) (memberships : List Membership) (restaurant_id : ℕ) (u : User),
      (∃ v, permissionCheck cap memberships restaurant_id u = .ok v) ↔
        (u.role ∈ systemAllowlist cap ∨
          ∃ m, findMembership memberships u.id restaurant_id = some m ∧
            m.role ∈ orgAllowlist cap)) ∧
    (∀ (memberships : List Membership) (x y : ℕ) (u : User) (m : Membership),
      u.role ≠ SystemRole.SUPERADMIN →
      findMembership memberships u.id x = some m →
      m.role = OrgRole.RESTAURANT_ADMIN →
      findMembership memberships u.id y = none →
      permissionCheck .manageRestaurant memberships x u = .ok u ∧
      permissionCheck .manageRestaurant memberships y u =
        .error ⟨403, "You don't have permission to perform this action."⟩) := by
  constructor
  · intro cap memberships restaurant_id u
    cases cap with
    | createRestaurant =>
        unfold permissionCheck require_system_roles systemAllowlist orgAllowlist
        by_cases h : u.role = SystemRole.SUPERADMIN <;> simp [h]
    | moderate =>
        unfold permissionCheck require_superadmin systemAllowlist orgAllowlist
        by_cases h : u.role = SystemRole.SUPERADMIN <;> simp [h]
    | manageRestaurant => exact require_org_or_system_roles_ok_iff _ _ _ _ _
    | editMenu => exact require_org_or_system_roles_ok_iff _ _ _ _ _
    | readRestaurant => exact require_org_or_system_roles_ok_iff _ _ _ _ _
  · intro memberships x y u m hrole hx hadmin hy
    constructor
    · unfold permissionCheck require_org_or_system_roles
      simp [hrole, hx, hadmin]
    · unfold permissionCheck require_org_or_system_roles
      simp [hrole, hy]

/-- Witness for the C6 theorem: `ownerBob`, RESTAURANT_ADMIN of restaurant 1
and member of no other, may manage restaurant 1 but not restaurant 2. -/
theorem permission_evaluator_characterization_witness :
    permissionCheck .manageRestaurant [⟨20, 1, OrgRole.RESTAURANT_ADMIN⟩] 1 ownerBob =
      .ok ownerBob ∧
    permissionCheck .manageRestaurant [⟨20, 1, OrgRole.RESTAURANT_ADMIN⟩] 2 ownerBob =
      .error ⟨403, "You don't have permission to perform this action."⟩ :=
  permission_evaluator_characterization.2 [⟨20, 1, OrgRole.RESTAURANT_ADMIN⟩] 1 2 ownerBob
    ⟨20, 1, OrgRole.RESTAURANT_ADMIN⟩ (by decide) (by decide) rfl (by decide)

/-- Counterexample to **C3 as stated**: the permission evaluator has no
SUSPENDED gate — `require_org_or_system_roles` falls through to the
membership lookup for a SUSPENDED principal, so the concrete SUSPENDED user
who still holds a RESTAURANT_ADMIN membership of restaurant 1 is *allowed*
"manage restaurant" on restaurant 1, contradicting "denies the request
regardless of any membership". -/
theorem suspended_member_is_allowed_manage :
    suspendedUser.role = SystemRole.SUSPENDED ∧
    permissionCheck .manageRestaurant [⟨12, 1, OrgRole.RESTAURANT_ADMIN⟩] 1 suspendedUser =
      .ok suspendedUser :=
  ⟨rfl, rfl⟩

/-- **C3 amended**: no dedicated SUSPENDED check exists; a SUSPENDED
principal is denied a capability exactly as any principal outside every
allowlist is.  Concretely: every capability is denied (403) when the
principal holds no membership for the target restaurant (SUSPENDED is in no
system-role allowlist); create-restaurant and moderate are always denied;
but a still-existing membership whose org role is in the capability's
org-role allowlist grants the capability even to a SUSPENDED principal. -/
theorem suspended_denied_only_without_membership (cap : Capability)
    (memberships : List Membership) (restaurant_id : ℕ) (u : User)
    (hrole : u.role = SystemRole.SUSPENDED) :
    (findMembership memberships u.id restaurant_id = none →
      ∃ e, permissionCheck cap memberships restaurant_id u = .error e ∧ e.code = 403) ∧
    ((cap = .createRestaurant ∨ cap = .moderate) →
      ∃ e, permissionCheck cap memberships restaurant_id u = .error e ∧ e.code = 403) ∧
    (∀ m, findMembership memberships u.id restaurant_id = some m →
      m.role ∈ orgAllowlist cap →
      permissionCheck cap memberships restaurant_id u = .ok u) := by
  refine ⟨?_, ?_, ?_⟩
  · intro hnone
    cases cap <;>
      simp [permissionCheck, require_system_roles, require_superadmin,
        require_org_or_system_roles, hrole, hnone]
  · rintro (rfl | rfl) <;>
      simp [permissionCheck, require_system_roles, require_superadmin, hrole]
  · intro m hm horg
    cases cap with
    | createRestaurant => cases horg
    | moderate => cases horg
    | manageRestaurant =>
        have hr : m.role = OrgRole.RESTAURANT_ADMIN := by simpa [orgAllowlist] using horg
        simp [permissionCheck, require_org_or_system_roles, hrole, hm, hr]
    | editMenu =>
        simp only [orgAllowlist] at horg
        simp [permissionCheck, require_org_or_system_roles, hrole, hm, horg]
    | readRestaurant =>
        simp only [orgAllowlist] at horg
        simp [permissionCheck, require_org_or_system_roles, hrole, hm, horg]

/-- Witness for the amended C3 theorem: the concrete SUSPENDED user with no
membership is denied "manage restaurant" on restaurant 1 and denied
"create restaurant" everywhere, while the same user holding the admin
membership of restaurant 1 is allowed to manage it. -/
theorem suspended_denied_only_without_membership_witness :
    (∃ e, permissionCheck .manageRestaurant [] 1 suspendedUser = .error e ∧
      e.code = 403) ∧
    (∃ e, permissionCheck .createRestaurant [] 1 suspendedUser = .error e ∧
      e.code = 403) ∧
    permissionCheck .manageRestaurant [⟨12, 1, OrgRole.RESTAURANT_ADMIN⟩] 1 suspendedUser =
      .ok suspendedUser :=
  ⟨(suspended_denied_only_without_membership .manageRestaurant [] 1 suspendedUser rfl).1
      (by decide),
   (suspended_denied_only_without_membership .createRestaurant [] 1 suspendedUser rfl).2.1
      (Or.inl rfl),
   (suspended_denied_only_without_membership .manageRestaurant
      [⟨12, 1, OrgRole.RESTAURANT_ADMIN⟩] 1 suspendedUser rfl).2.2
      ⟨12, 1, OrgRole.RESTAURANT_ADMIN⟩ (by decide) (by decide)⟩

/-- Appending a membership whose (user, restaurant) pair is absent from the
list preserves pairwise uniqueness of the pairs. -/
theorem uniqueMembershipPairs_append (ms : List Membership) (m : Membership)
    (hnone : findMembership ms m.user_id m.restaurant_id = none)
    (h : uniqueMembershipPairs ms) : uniqueMembershipPairs (ms ++ [m]) := by
  unfold uniqueMembershipPairs at h ⊢
  rw [List.pairwise_append]
  refine ⟨h, List.pairwise_singleton _ _, ?_⟩
  intro a ha b hb
  simp only [List.mem_singleton] at hb
  subst hb
  unfold findMembership at hnone
  rw [List.find?_eq_none] at hnone
  have hne := hnone a ha
  simp only [Bool.and_eq_true, beq_iff_eq] at hne
  intro hc
  exact hne ⟨hc.1, hc.2⟩

/-- **C9**: both membership-creating operations preserve the at-most-one
membership per (user, restaurant) invariant.  When a membership for the pair
already exists, `add_member` and `accept_invitation` fail with the duplicate
Conflict rejection (HTTP 400 in this transport) and no membership is
appended; when they succeed the new pair was absent, exactly one membership
is appended, and pairwise uniqueness is preserved — so a second acceptance of
the same invitation is rejected. -/
theorem membership_pair_uniqueness_preserved
    (memberships : List Membership) (users : List User) (restaurants : List Restaurant)
    (restaurant_id : ℕ) (request : AddMemberRequest)
    (current_user : User) (payload : InvitationPayload) :
    (∀ u, findUserByEmail users request.email = some u →
      (∃ m, findMembership memberships u.id restaurant_id = some m) →
      add_member memberships users restaurant_id request =
        .error ⟨400, "User is already a member of this restaurant"⟩) ∧
    (∀ ms' m', add_member memberships users restaurant_id request = .ok (ms', m') →
      findMembership memberships m'.user_id m'.restaurant_id = none ∧
      ms' = memberships ++ [m'] ∧
      (uniqueMembershipPairs memberships → uniqueMembershipPairs ms')) ∧
    ((∃ m, findMembership memberships current_user.id payload.restaurant_id = some m) →
      current_user.email.toLower = payload.email.toLower →
      (∃ r, findRestaurant restaurants payload.restaurant_id = some r) →
      accept_invitation memberships restaurants current_user (some payload) =
        .error ⟨400, "You are already a member of this restaurant"⟩) ∧
    (∀ ms' m',
      accept_invitation memberships restaurants current_user (some payload) = .ok (ms', m') →
      findMembership memberships m'.user_id m'.restaurant_id = none ∧
      ms' = memberships ++ [m'] ∧
      (uniqueMembershipPairs memberships → uniqueMembershipPairs ms')) := by
  refine ⟨?_, ?_, ?_, ?_⟩
  · rintro u hu ⟨m, hm⟩
    simp [add_member, hu, hm]
  · intro ms' m' h
    unfold add_member at h
    cases hu : findUserByEmail users request.email with
    | none => rw [hu] at h; cases h
    | some u =>
        rw [hu] at h
        cases hm : findMembership memberships u.id restaurant_id with
        | some m => simp [hm] at h
        | none =>
            simp only [hm] at h
            cases h
            exact ⟨hm, rfl, fun hun => uniqueMembershipPairs_append _ _ hm hun⟩
  · rintro ⟨m, hm⟩ hemail ⟨r, hr⟩
    simp [accept_invitation, hemail, hr, hm]
  · intro ms' m' h
    simp only [accept_invitation] at h
    by_cases hemail : current_user.email.toLower ≠ payload.email.toLower
    · rw [if_pos hemail] at h; cases h
    · rw [if_neg hemail] at h
      cases hr : findRestaurant restaurants payload.restaurant_id with
      | none => rw [hr] at h; cases h
      | some r =>
          rw [hr] at h
          cases hm : findMembership memberships current_user.id payload.restaurant_id with
          | some m => simp [hm] at h
          | none =>
              simp only [hm] at h
              cases h
              exact ⟨hm, rfl, fun hun => uniqueMembershipPairs_append _ _ hm hun⟩

/-- Witness for the C9 theorem: carol's first acceptance of the EMPLOYEE
invitation to restaurant 1 appends exactly one membership and keeps pairs
unique; a second acceptance of the same invitation, and an `add_member` for
the same pair, are both rejected as duplicates. -/
theorem membership_pair_uniqueness_preserved_witness :
    (findMembership [] 30 1 = none ∧
      ([⟨30, 1, OrgRole.EMPLOYEE⟩] : List Membership) = [] ++ [⟨30, 1, OrgRole.EMPLOYEE⟩] ∧
      (uniqueMembershipPairs [] → uniqueMembershipPairs [⟨30, 1, OrgRole.EMPLOYEE⟩])) ∧
    (accept_invitation [⟨30, 1, OrgRole.EMPLOYEE⟩] [pizzaPlace] carolUser
        (some ⟨"carol@example.com", 1, OrgRole.EMPLOYEE⟩) =
      .error ⟨400, "You are already a member of this restaurant"⟩) ∧
    (add_member [⟨30, 1, OrgRole.EMPLOYEE⟩] [carolUser] 1 ⟨"carol@example.com", OrgRole.EMPLOYEE⟩ =
      .error ⟨400, "User is already a member of this restaurant"⟩) :=
  ⟨(membership_pair_uniqueness_preserved [] [carolUser] [pizzaPlace] 1
      ⟨"carol@example.com", OrgRole.EMPLOYEE⟩ carolUser
      ⟨"carol@example.com", 1, OrgRole.EMPLOYEE⟩).2.2.2
      [⟨30, 1, OrgRole.EMPLOYEE⟩] ⟨30, 1, OrgRole.EMPLOYEE⟩
      (by
        simp only [accept_invitation]
        rw [if_neg (fun hh => hh rfl)]
        rfl),
   (membership_pair_uniqueness_preserved [⟨30, 1, OrgRole.EMPLOYEE⟩] [carolUser] [pizzaPlace] 1
      ⟨"carol@example.com", OrgRole.EMPLOYEE⟩ carolUser
      ⟨"carol@example.com", 1, OrgRole.EMPLOYEE⟩).2.2.1
      ⟨⟨30, 1, OrgRole.EMPLOYEE⟩, by decide⟩ rfl ⟨pizzaPlace, by decide⟩,
   (membership_pair_uniqueness_preserved [⟨30, 1, OrgRole.EMPLOYEE⟩] [carolUser] [pizzaPlace] 1
      ⟨"carol@example.com", OrgRole.EMPLOYEE⟩ carolUser
      ⟨"carol@example.com", 1, OrgRole.EMPLOYEE⟩).1
      carolUser (by decide) ⟨⟨30, 1, OrgRole.EMPLOYEE⟩, by decide⟩⟩

end RecipeManager
